import Mathlib

/-!
Shallow embedding of the quote calculation engine of signquote-pro
(`src/utils/pricing.ts`, `calculateQuote`), together with the data model
from `src/types.ts` (present in the repository as an unnamed source part).

Numbers are modelled as rationals (`ℚ`): the TypeScript source computes with
IEEE doubles, but every pricing rule is exact rational arithmetic
(+, *, /144, max), so `ℚ` captures the ideal arithmetic the spec's
"to floating-point tolerance" clauses refer to.

The TypeScript enums `SignType`, `LightingType` and the `liftType` union are
string-valued and the source compares them with `===`; they are therefore
modelled as `String` constants, which keeps values outside the closed
enumerations representable, exactly as a cast/any value would be at runtime.

The source accumulates human-readable line-item strings
(e.g. "4 Letters Base @ $85: $340.00"). Each `push` site is modelled as one
constructor of a structured line-item type carrying the numeric payloads the
source interpolates into the string; the display formatting (`toFixed`) is
presentation only and is not modelled.
-/

namespace SignQuote

/-- `SignType` enum from `src/types.ts` (string-valued TS enum). -/
def SignType.CHANNEL_LETTERS : String := "Channel Letters"

def SignType.LIGHTBOX : String := "Lightbox"

def SignType.WINDOW_VINYL : String := "Window Vinyl"

/-- `LightingType` enum from `src/types.ts` (string-valued TS enum). -/
def LightingType.NON_LIT : String := "NON_LIT"

def LightingType.FRONT_LIT : String := "FRONT_LIT"

def LightingType.BACK_LIT : String := "BACK_LIT"

/-- The `dimensions` argument of `calculateQuote`. -/
structure Dimensions where
  widthIn : ℚ
  heightIn : ℚ
  deriving DecidableEq

/-- `DesignVariant` from `src/types.ts`; only `lighting` and `roundedBacker`
affect pricing, the rest are cosmetic but kept for fidelity. -/
structure DesignVariant where
  name : String
  fontFamily : String
  letterSpacing : String
  lighting : String
  roundedBacker : Bool
  stroke : Bool
  strokeWidth : String
  recommendedLetterHeightIn : ℚ
  deriving DecidableEq

/-- `InstallConfig` from `src/types.ts`; `liftType` is the TS string union
NONE | SCISSOR | BOOM, modelled as `String`. -/
structure InstallConfig where
  heightFeet : ℚ
  liftType : String
  electricalWork : Bool
  permit : Bool
  hardAccess : Bool
  address : String
  clientName : String
  deriving DecidableEq

/-- One fabrication line item: one constructor per `fabAdders.push` site in
`src/utils/pricing.ts`, carrying the numbers the source interpolates. -/
inductive FabAdder where
  | lettersBase (letterCount : Nat) (rate : ℚ) (amount : ℚ)
  | heightAdder (heightIn : ℚ) (amount : ℚ)
  | frontLitUpgrade (amount : ℚ)
  | backLitUpgrade (amount : ℚ)
  | racewayBacker (amount : ℚ)
  | minimumApplied (minPrice : ℚ)
  | sizeSqft (sqft : ℚ) (rate : ℚ) (amount : ℚ)
  | depthAdder (excessIn : ℚ) (amount : ℚ)
  | internalIllumination (amount : ℚ)
  | lamination (amount : ℚ)
  | rushOrder (amount : ℚ)
  deriving DecidableEq

/-- Recognizer for the "Minimum Pricing Applied" line item. -/
def FabAdder.isMinimumApplied : FabAdder → Bool
  | FabAdder.minimumApplied _ => true
  | _ => false

/-- One installation line item: one constructor per `installAdders.push` site
in `src/utils/pricing.ts`. -/
inductive InstallAdder where
  | baseTripFee (amount : ℚ)
  | labor (hours : ℚ) (rate : ℚ) (amount : ℚ)
  | lift (liftType : String) (amount : ℚ)
  | electricalHookup (amount : ℚ)
  | permitAllowance (amount : ℚ)
  | hardAccessParking (amount : ℚ)
  | contingency (amount : ℚ)
  deriving DecidableEq

/-- The `breakdown` field of `QuoteResult` from `src/types.ts`. -/
structure Breakdown where
  fabBase : ℚ
  fabAdders : List FabAdder
  installLabor : ℚ
  installLift : ℚ
  installAdders : List InstallAdder
  deriving DecidableEq

/-- `QuoteResult` from `src/types.ts`. -/
structure QuoteResult where
  fabricationCost : ℚ
  installationCost : ℚ
  subtotal : ℚ
  gst : ℚ
  total : ℚ
  breakdown : Breakdown
  deriving DecidableEq

/-- One entry of `PRICING.INSTALLATION.HEIGHT_TIERS`. -/
structure HeightTier where
  maxFt : ℚ
  hours : ℚ
  deriving DecidableEq

/-- Modelled from the spec: the per-category fabrication rule record for
ChannelLetters of the `PricingRuleTable` (the repository's `constants.ts`
holding `PRICING` is imported by `src/utils/pricing.ts` but absent from the
sources; the spec describes the table as injectable configuration with
base-per-unit rates, per-inch rates, lighting adders and a minimum price
floor). Field names follow the accesses made by `src/utils/pricing.ts`. -/
structure ChannelRules where
  BASE_PER_LETTER : ℚ
  PER_INCH_HEIGHT : ℚ
  LIGHTING_ADDER_FRONT_LIT : ℚ
  LIGHTING_ADDER_BACK_LIT : ℚ
  BACKER_ADDER : ℚ
  MIN_PRICE : ℚ
  deriving DecidableEq

/-- Modelled from the spec: the Lightbox fabrication rule record of the
missing `constants.ts`, fields as accessed by `src/utils/pricing.ts`. -/
structure LightboxRules where
  PER_SQFT : ℚ
  DEPTH_BASE : ℚ
  DEPTH_ADDER_PER_INCH : ℚ
  LIGHTING_ADDER_FRONT_LIT : ℚ
  MIN_PRICE : ℚ
  deriving DecidableEq

/-- Modelled from the spec: the WindowVinyl fabrication rule record of the
missing `constants.ts`, fields as accessed by `src/utils/pricing.ts`. -/
structure VinylRules where
  PER_SQFT : ℚ
  LAMINATION_PERCENT : ℚ
  MIN_PRICE : ℚ
  deriving DecidableEq

/-- Modelled from the spec: `PRICING.INSTALLATION` of the missing
`constants.ts`, fields as accessed by `src/utils/pricing.ts`. -/
structure InstallRules where
  BASE_TRIP : ℚ
  LABOR_RATE : ℚ
  HEIGHT_TIERS : List HeightTier
  LIFT_SCISSOR : ℚ
  LIFT_BOOM : ℚ
  ELECTRICAL : ℚ
  PERMIT : ℚ
  HARD_ACCESS : ℚ
  CONTINGENCY_PERCENT : ℚ
  deriving DecidableEq

/-- Modelled from the spec: the whole `PRICING` table of the missing
`constants.ts`. The engine is proved parametrically over this table, as
the spec's "injectable configuration" treatment prescribes. -/
structure Pricing where
  CHANNEL_LETTERS : ChannelRules
  LIGHTBOX : LightboxRules
  WINDOW_VINYL : VinylRules
  RUSH_ORDER_PERCENT : ℚ
  INSTALLATION : InstallRules
  TAX_GST : ℚ
  deriving DecidableEq

/-- `text.replace(/\s/g, '').length`: the number of non-whitespace
characters of `text`. -/
def letterCountOf (text : String) : Nat :=
  (text.data.filter fun c => !c.isWhitespace).length

/-- The ChannelLetters branch of `calculateQuote`
(`src/utils/pricing.ts`): returns the floored fabrication cost (pre rush)
and the fabrication line items emitted, in push order. -/
def fabChannel (rules : ChannelRules) (dims : Dimensions) (text : String)
    (variant : DesignVariant) : ℚ × List FabAdder :=
  let letterCount := letterCountOf text
  let baseLettersCost : ℚ := (letterCount : ℚ) * rules.BASE_PER_LETTER
  let items1 := [FabAdder.lettersBase letterCount rules.BASE_PER_LETTER baseLettersCost]
  let raw1 : ℚ := 0 + baseLettersCost
  let heightCost : ℚ := (letterCount : ℚ) * dims.heightIn * rules.PER_INCH_HEIGHT
  let items2 := items1 ++ [FabAdder.heightAdder dims.heightIn heightCost]
  let raw2 := raw1 + heightCost
  let litStep : List FabAdder × ℚ :=
    if variant.lighting = LightingType.FRONT_LIT then
      let litCost : ℚ := (letterCount : ℚ) * rules.LIGHTING_ADDER_FRONT_LIT
      ([FabAdder.frontLitUpgrade litCost], litCost)
    else if variant.lighting = LightingType.BACK_LIT then
      let litCost : ℚ := (letterCount : ℚ) * rules.LIGHTING_ADDER_BACK_LIT
      ([FabAdder.backLitUpgrade litCost], litCost)
    else ([], 0)
  let items3 := items2 ++ litStep.1
  let raw3 := raw2 + litStep.2
  let backerStep : List FabAdder × ℚ :=
    if variant.roundedBacker then ([FabAdder.racewayBacker rules.BACKER_ADDER], rules.BACKER_ADDER)
    else ([], 0)
  let items4 := items3 ++ backerStep.1
  let raw4 := raw3 + backerStep.2
  let fabCost := max raw4 rules.MIN_PRICE
  let items5 :=
    if fabCost = rules.MIN_PRICE ∧ raw4 < rules.MIN_PRICE then
      items4 ++ [FabAdder.minimumApplied rules.MIN_PRICE]
    else items4
  (fabCost, items5)

/-- The Lightbox branch of `calculateQuote` (`src/utils/pricing.ts`). -/
def fabLightbox (rules : LightboxRules) (dims : Dimensions)
    (variant : DesignVariant) (lightboxDepth : ℚ) : ℚ × List FabAdder :=
  let sqft : ℚ := dims.widthIn * dims.heightIn / 144
  let raw1 : ℚ := sqft * rules.PER_SQFT
  let items1 := [FabAdder.sizeSqft sqft rules.PER_SQFT raw1]
  let depthStep : List FabAdder × ℚ :=
    if rules.DEPTH_BASE < lightboxDepth then
      let depthExcess := lightboxDepth - rules.DEPTH_BASE
      let depthCost := depthExcess * rules.DEPTH_ADDER_PER_INCH
      ([FabAdder.depthAdder depthExcess depthCost], depthCost)
    else ([], 0)
  let items2 := items1 ++ depthStep.1
  let raw2 := raw1 + depthStep.2
  let litStep : List FabAdder × ℚ :=
    if variant.lighting = LightingType.FRONT_LIT then
      ([FabAdder.internalIllumination rules.LIGHTING_ADDER_FRONT_LIT],
        rules.LIGHTING_ADDER_FRONT_LIT)
    else ([], 0)
  let items3 := items2 ++ litStep.1
  let raw3 := raw2 + litStep.2
  let fabCost := max raw3 rules.MIN_PRICE
  let items4 :=
    if fabCost = rules.MIN_PRICE ∧ raw3 < rules.MIN_PRICE then
      items3 ++ [FabAdder.minimumApplied rules.MIN_PRICE]
    else items3
  (fabCost, items4)

/-- The WindowVinyl branch of `calculateQuote` (`src/utils/pricing.ts`).
Note: this branch applies the floor but never pushes a minimum-applied
line item (asymmetry present in the source). -/
def fabVinyl (rules : VinylRules) (dims : Dimensions)
    (hasLamination : Bool) : ℚ × List FabAdder :=
  let sqft : ℚ := dims.widthIn * dims.heightIn / 144
  let raw1 : ℚ := sqft * rules.PER_SQFT
  let items1 := [FabAdder.sizeSqft sqft rules.PER_SQFT raw1]
  let lamStep : List FabAdder × ℚ :=
    if hasLamination then
      let lamCost := raw1 * rules.LAMINATION_PERCENT
      ([FabAdder.lamination lamCost], lamCost)
    else ([], 0)
  let items2 := items1 ++ lamStep.1
  let raw2 := raw1 + lamStep.2
  let fabCost := max raw2 rules.MIN_PRICE
  (fabCost, items2)

/-- Fabrication dispatch: the if/else chain over `signType` of
`calculateQuote`. A `signType` matching none of the three enum constants
falls through every branch, leaving `fabCost = 0` and no items, exactly as
the source's `let fabCost = 0` does. -/
def fabricationOf (P : Pricing) (signType : String) (dims : Dimensions)
    (text : String) (variant : DesignVariant) (hasLamination : Bool)
    (lightboxDepth : ℚ) : ℚ × List FabAdder :=
  if signType = SignType.CHANNEL_LETTERS then
    fabChannel P.CHANNEL_LETTERS dims text variant
  else if signType = SignType.LIGHTBOX then
    fabLightbox P.LIGHTBOX dims variant lightboxDepth
  else if signType = SignType.WINDOW_VINYL then
    fabVinyl P.WINDOW_VINYL dims hasLamination
  else (0, [])

/-- The height-tier lookup of `calculateQuote`:
`HEIGHT_TIERS.find(t => heightFeet <= t.maxFt) || HEIGHT_TIERS[len - 1]`.
For an empty tier table the source would crash dereferencing `undefined`;
the `getLastD` default tier here is unreachable under the spec's invariant
(non-empty ascending table), which every theorem about this lookup assumes. -/
def selectedTier (rules : InstallRules) (heightFeet : ℚ) : HeightTier :=
  (rules.HEIGHT_TIERS.find? fun t => decide (heightFeet ≤ t.maxFt)).getD
    (rules.HEIGHT_TIERS.getLastD ⟨0, 0⟩)

/-- Intermediate record for the installation section of `calculateQuote`:
total installation cost, labor cost, lift cost and the line items. -/
structure InstallOutcome where
  cost : ℚ
  labor : ℚ
  lift : ℚ
  items : List InstallAdder
  deriving DecidableEq

/-- The installation section of `calculateQuote` (`src/utils/pricing.ts`). -/
def installationOf (rules : InstallRules) (cfg : InstallConfig) : InstallOutcome :=
  let installBase := rules.BASE_TRIP
  let items1 := [InstallAdder.baseTripFee rules.BASE_TRIP]
  let tier := selectedTier rules cfg.heightFeet
  let laborCost := tier.hours * rules.LABOR_RATE
  let items2 := items1 ++ [InstallAdder.labor tier.hours rules.LABOR_RATE laborCost]
  let liftCost : ℚ :=
    if cfg.liftType = "SCISSOR" then rules.LIFT_SCISSOR
    else if cfg.liftType = "BOOM" then rules.LIFT_BOOM
    else 0
  let items3 :=
    if 0 < liftCost then items2 ++ [InstallAdder.lift cfg.liftType liftCost] else items2
  let extras1 : ℚ := if cfg.electricalWork then rules.ELECTRICAL else 0
  let items4 :=
    if cfg.electricalWork then items3 ++ [InstallAdder.electricalHookup rules.ELECTRICAL]
    else items3
  let extras2 := extras1 + (if cfg.permit then rules.PERMIT else 0)
  let items5 :=
    if cfg.permit then items4 ++ [InstallAdder.permitAllowance rules.PERMIT] else items4
  let extras3 := extras2 + (if cfg.hardAccess then rules.HARD_ACCESS else 0)
  let items6 :=
    if cfg.hardAccess then items5 ++ [InstallAdder.hardAccessParking rules.HARD_ACCESS]
    else items5
  let preContingencyInstall := installBase + laborCost + liftCost + extras3
  let contingencyAmt := preContingencyInstall * rules.CONTINGENCY_PERCENT
  let items7 := items6 ++ [InstallAdder.contingency contingencyAmt]
  let installationCost := preContingencyInstall + contingencyAmt
  ⟨installationCost, laborCost, liftCost, items7⟩

/-- `calculateQuote` from `src/utils/pricing.ts`, parametric in the
`PRICING` table. The TS default arguments are `hasLamination = false` and
`lightboxDepth = 4`; here both are always passed explicitly. -/
def calculateQuote (P : Pricing) (signType : String) (dimensions : Dimensions)
    (text : String) (variant : DesignVariant) (installConfig : InstallConfig)
    (isRush : Bool) (hasLamination : Bool) (lightboxDepth : ℚ) : QuoteResult :=
  let fab0 := fabricationOf P signType dimensions text variant hasLamination lightboxDepth
  let rushStep : ℚ × List FabAdder :=
    if isRush then
      let rushFee := fab0.1 * P.RUSH_ORDER_PERCENT
      (fab0.1 + rushFee, fab0.2 ++ [FabAdder.rushOrder rushFee])
    else fab0
  let fabCost := rushStep.1
  let fabAdders := rushStep.2
  let inst := installationOf P.INSTALLATION installConfig
  let subtotal := fabCost + inst.cost
  let gst := subtotal * P.TAX_GST
  let total := subtotal + gst
  { fabricationCost := fabCost
    installationCost := inst.cost
    subtotal := subtotal
    gst := gst
    total := total
    breakdown :=
      { fabBase := fabCost
        fabAdders := fabAdders
        installLabor := inst.labor
        installLift := inst.lift
        installAdders := inst.items } }

/-- A concrete pricing table used as witness data (the repository's real
`constants.ts` values are not in the sources; all theorems are parametric
in the table, so these values only instantiate witnesses). -/
def sampleP : Pricing :=
  { CHANNEL_LETTERS :=
      { BASE_PER_LETTER := 85, PER_INCH_HEIGHT := 3/2,
        LIGHTING_ADDER_FRONT_LIT := 40, LIGHTING_ADDER_BACK_LIT := 30,
        BACKER_ADDER := 250, MIN_PRICE := 500 }
    LIGHTBOX :=
      { PER_SQFT := 55, DEPTH_BASE := 5, DEPTH_ADDER_PER_INCH := 20,
        LIGHTING_ADDER_FRONT_LIT := 160, MIN_PRICE := 600 }
    WINDOW_VINYL := { PER_SQFT := 12, LAMINATION_PERCENT := 1/4, MIN_PRICE := 150 }
    RUSH_ORDER_PERCENT := 12/100
    INSTALLATION :=
      { BASE_TRIP := 150, LABOR_RATE := 95,
        HEIGHT_TIERS := [⟨10, 2⟩, ⟨20, 4⟩, ⟨100, 8⟩],
        LIFT_SCISSOR := 350, LIFT_BOOM := 600,
        ELECTRICAL := 250, PERMIT := 400, HARD_ACCESS := 150,
        CONTINGENCY_PERCENT := 1/10 }
    TAX_GST := 5/100 }

/-- A non-lit design variant used as witness data. -/
def sampleVariant : DesignVariant :=
  { name := "Classic", fontFamily := "Inter", letterSpacing := "0.05em",
    lighting := LightingType.NON_LIT, roundedBacker := false,
    stroke := false, strokeWidth := "2px", recommendedLetterHeightIn := 18 }

/-- An installation configuration used as witness data; `heightFeet = 20`
sits exactly on the second sample tier's ceiling. -/
def sampleCfg : InstallConfig :=
  { heightFeet := 20, liftType := "NONE", electricalWork := false,
    permit := false, hardAccess := false,
    address := "123 Main St", clientName := "Acme Signs" }

/-- An installation configuration with a `liftType` outside the closed
NONE | SCISSOR | BOOM union, used as witness data. -/
def sampleLiftCfg : InstallConfig :=
  { heightFeet := 20, liftType := "JETPACK", electricalWork := false,
    permit := false, hardAccess := false,
    address := "123 Main St", clientName := "Acme Signs" }

lemma letterCount_OPEN : letterCountOf "OPEN" = 4 := by decide

lemma letterCount_empty : letterCountOf "" = 0 := by decide

lemma min_cond_iff (raw M : ℚ) : (max raw M = M ∧ raw < M) ↔ raw < M :=
  ⟨fun h => h.2, fun h => ⟨max_eq_right h.le, h⟩⟩

lemma fabChannel_fst (rules : ChannelRules) (dims : Dimensions) (text : String)
    (variant : DesignVariant) :
    (fabChannel rules dims text variant).1
      = max ((letterCountOf text : ℚ) * rules.BASE_PER_LETTER
          + (letterCountOf text : ℚ) * dims.heightIn * rules.PER_INCH_HEIGHT
          + (if variant.lighting = LightingType.FRONT_LIT then
               (letterCountOf text : ℚ) * rules.LIGHTING_ADDER_FRONT_LIT
             else if variant.lighting = LightingType.BACK_LIT then
               (letterCountOf text : ℚ) * rules.LIGHTING_ADDER_BACK_LIT
             else 0)
          + (if variant.roundedBacker then rules.BACKER_ADDER else 0))
          rules.MIN_PRICE := by
  simp only [fabChannel, apply_ite Prod.snd]
  split_ifs <;> (congr 1; ring)

lemma fabChannel_snd_head (rules : ChannelRules) (dims : Dimensions) (text : String)
    (variant : DesignVariant) :
    (fabChannel rules dims text variant).2.head?
      = some (FabAdder.lettersBase (letterCountOf text) rules.BASE_PER_LETTER
          ((letterCountOf text : ℚ) * rules.BASE_PER_LETTER)) := by
  simp only [fabChannel]
  split_ifs <;> simp

lemma fabChannel_min_item (rules : ChannelRules) (dims : Dimensions) (text : String)
    (variant : DesignVariant) :
    ((fabChannel rules dims text variant).2.any FabAdder.isMinimumApplied = true)
      ↔ (letterCountOf text : ℚ) * rules.BASE_PER_LETTER
          + (letterCountOf text : ℚ) * dims.heightIn * rules.PER_INCH_HEIGHT
          + (if variant.lighting = LightingType.FRONT_LIT then
               (letterCountOf text : ℚ) * rules.LIGHTING_ADDER_FRONT_LIT
             else if variant.lighting = LightingType.BACK_LIT then
               (letterCountOf text : ℚ) * rules.LIGHTING_ADDER_BACK_LIT
             else 0)
          + (if variant.roundedBacker then rules.BACKER_ADDER else 0)
        < rules.MIN_PRICE := by
  simp only [fabChannel, apply_ite Prod.snd, apply_ite Prod.fst, min_cond_iff]
  split_ifs <;> simp [FabAdder.isMinimumApplied] <;> linarith

lemma fabLightbox_fst (rules : LightboxRules) (dims : Dimensions)
    (variant : DesignVariant) (depth : ℚ) :
    (fabLightbox rules dims variant depth).1
      = max (dims.widthIn * dims.heightIn / 144 * rules.PER_SQFT
          + (if rules.DEPTH_BASE < depth then
               (depth - rules.DEPTH_BASE) * rules.DEPTH_ADDER_PER_INCH
             else 0)
          + (if variant.lighting = LightingType.FRONT_LIT then rules.LIGHTING_ADDER_FRONT_LIT
             else 0))
          rules.MIN_PRICE := by
  simp only [fabLightbox, apply_ite Prod.snd]

lemma fabLightbox_min_item (rules : LightboxRules) (dims : Dimensions)
    (variant : DesignVariant) (depth : ℚ) :
    ((fabLightbox rules dims variant depth).2.any FabAdder.isMinimumApplied = true)
      ↔ dims.widthIn * dims.heightIn / 144 * rules.PER_SQFT
          + (if rules.DEPTH_BASE < depth then (depth - rules.DEPTH_BASE) * rules.DEPTH_ADDER_PER_INCH
             else 0)
          + (if variant.lighting = LightingType.FRONT_LIT then rules.LIGHTING_ADDER_FRONT_LIT else 0)
        < rules.MIN_PRICE := by
  simp only [fabLightbox, apply_ite Prod.snd, apply_ite Prod.fst, min_cond_iff]
  split_ifs <;> simp [FabAdder.isMinimumApplied] <;> linarith

lemma fabVinyl_no_min_item (rules : VinylRules) (dims : Dimensions) (hasLam : Bool) :
    (fabVinyl rules dims hasLam).2.any FabAdder.isMinimumApplied = false := by
  simp only [fabVinyl, apply_ite Prod.snd, apply_ite Prod.fst]
  split_ifs <;> simp [FabAdder.isMinimumApplied]

lemma calculateQuote_any_fabAdder (P : Pricing) (st : String) (dims : Dimensions)
    (text : String) (variant : DesignVariant) (cfg : InstallConfig) (isRush : Bool)
    (hasLam : Bool) (depth : ℚ) (f : FabAdder → Bool)
    (hf : ∀ q, f (FabAdder.rushOrder q) = false) :
    (calculateQuote P st dims text variant cfg isRush hasLam depth).breakdown.fabAdders.any f
      = (fabricationOf P st dims text variant hasLam depth).2.any f := by
  cases isRush
  · rfl
  · show ((fabricationOf P st dims text variant hasLam depth).2
        ++ [FabAdder.rushOrder ((fabricationOf P st dims text variant hasLam depth).1
              * P.RUSH_ORDER_PERCENT)]).any f = _
    simp [hf]

lemma labor_item_mem (rules : InstallRules) (cfg : InstallConfig) :
    InstallAdder.labor (selectedTier rules cfg.heightFeet).hours rules.LABOR_RATE
        ((selectedTier rules cfg.heightFeet).hours * rules.LABOR_RATE)
      ∈ (installationOf rules cfg).items := by
  simp only [installationOf]
  split_ifs <;> simp

lemma rush_preserves_gt (P : Pricing) (st : String) (dims : Dimensions) (text : String)
    (v₁ v₂ : DesignVariant) (cfg : InstallConfig) (isRush : Bool) (hasLam : Bool)
    (depth : ℚ) (hp : 0 ≤ P.RUSH_ORDER_PERCENT)
    (h : (fabricationOf P st dims text v₁ hasLam depth).1
        > (fabricationOf P st dims text v₂ hasLam depth).1) :
    (calculateQuote P st dims text v₁ cfg isRush hasLam depth).fabricationCost
      > (calculateQuote P st dims text v₂ cfg isRush hasLam depth).fabricationCost := by
  cases isRush
  · exact h
  · show (fabricationOf P st dims text v₂ hasLam depth).1
        + (fabricationOf P st dims text v₂ hasLam depth).1 * P.RUSH_ORDER_PERCENT
      < (fabricationOf P st dims text v₁ hasLam depth).1
        + (fabricationOf P st dims text v₁ hasLam depth).1 * P.RUSH_ORDER_PERCENT
    nlinarith [h, hp]

/-- C1 (counterexample): the claim says a negative `heightIn` makes the
engine fail fast with a validation error instead of returning a clamped
`QuoteResult`. On the code, `heightIn = -50` (ChannelLetters, text "OPEN",
no rush) flows through the arithmetic unchecked: the raw cost lands below
the minimum price and the engine returns a normal `QuoteResult` whose
`fabricationCost` is silently clamped to `MIN_PRICE`. -/
theorem C1_counterexample :
    (calculateQuote sampleP SignType.CHANNEL_LETTERS ⟨30, -50⟩ "OPEN" sampleVariant sampleCfg
        false false 4).fabricationCost = sampleP.CHANNEL_LETTERS.MIN_PRICE
      ∧ (letterCountOf "OPEN" : ℚ) * sampleP.CHANNEL_LETTERS.BASE_PER_LETTER
          + (letterCountOf "OPEN" : ℚ) * (-50) * sampleP.CHANNEL_LETTERS.PER_INCH_HEIGHT
        < sampleP.CHANNEL_LETTERS.MIN_PRICE := by
  constructor
  · simp [calculateQuote, fabricationOf, fabChannel, letterCount_OPEN, sampleP, sampleVariant,
      SignType.CHANNEL_LETTERS, LightingType.FRONT_LIT, LightingType.BACK_LIT,
      LightingType.NON_LIT, max_def]
    norm_num
  · simp [letterCount_OPEN, sampleP]
    norm_num

/-- C1 (amended): `calculateQuote` performs no validation of its numeric
inputs. For every ChannelLetters input with negative `heightIn` whose raw
fabrication cost falls below the minimum price, the engine returns a
`QuoteResult` whose fabrication cost is silently substituted with
`MIN_PRICE` by the floor, rather than failing with a validation error. -/
theorem C1_no_validation (P : Pricing) (dims : Dimensions) (text : String)
    (variant : DesignVariant) (cfg : InstallConfig) (hasLam : Bool) (depth : ℚ)
    (_hneg : dims.heightIn < 0)
    (hraw : (letterCountOf text : ℚ) * P.CHANNEL_LETTERS.BASE_PER_LETTER
        + (letterCountOf text : ℚ) * dims.heightIn * P.CHANNEL_LETTERS.PER_INCH_HEIGHT
        + (if variant.lighting = LightingType.FRONT_LIT then
             (letterCountOf text : ℚ) * P.CHANNEL_LETTERS.LIGHTING_ADDER_FRONT_LIT
           else if variant.lighting = LightingType.BACK_LIT then
             (letterCountOf text : ℚ) * P.CHANNEL_LETTERS.LIGHTING_ADDER_BACK_LIT
           else 0)
        + (if variant.roundedBacker then P.CHANNEL_LETTERS.BACKER_ADDER else 0)
        < P.CHANNEL_LETTERS.MIN_PRICE) :
    (calculateQuote P SignType.CHANNEL_LETTERS dims text variant cfg false hasLam depth).fabricationCost
      = P.CHANNEL_LETTERS.MIN_PRICE := by
  show (fabChannel P.CHANNEL_LETTERS dims text variant).1 = _
  rw [fabChannel_fst]
  exact max_eq_right hraw.le

/-- C1 (witness): the amended theorem applied at the concrete negative
input of the counterexample. -/
theorem C1_witness :
    ((-50 : ℚ) < 0)
      ∧ (calculateQuote sampleP SignType.CHANNEL_LETTERS ⟨30, -50⟩ "OPEN" sampleVariant sampleCfg
          false false 4).fabricationCost = sampleP.CHANNEL_LETTERS.MIN_PRICE :=
  ⟨by norm_num,
    C1_no_validation sampleP ⟨30, -50⟩ "OPEN" sampleVariant sampleCfg false 4 (by norm_num)
      (by simp [letterCount_OPEN, sampleP, sampleVariant, LightingType.FRONT_LIT,
            LightingType.BACK_LIT, LightingType.NON_LIT]
          norm_num)⟩

/-- C2: for every input on which the engine produces a `QuoteResult`, the
result satisfies `subtotal = fabricationCost + installationCost`,
`gst = subtotal * TAX_GST` (the tax field is named `gst` in the source) and
`total = subtotal + gst`; in exact rational arithmetic the identities hold
with no tolerance needed. -/
theorem C2_totals_identity (P : Pricing) (st : String) (dims : Dimensions)
    (text : String) (variant : DesignVariant) (cfg : InstallConfig)
    (isRush : Bool) (hasLam : Bool) (depth : ℚ) :
    (calculateQuote P st dims text variant cfg isRush hasLam depth).subtotal
        = (calculateQuote P st dims text variant cfg isRush hasLam depth).fabricationCost
          + (calculateQuote P st dims text variant cfg isRush hasLam depth).installationCost
      ∧ (calculateQuote P st dims text variant cfg isRush hasLam depth).gst
        = (calculateQuote P st dims text variant cfg isRush hasLam depth).subtotal * P.TAX_GST
      ∧ (calculateQuote P st dims text variant cfg isRush hasLam depth).total
        = (calculateQuote P st dims text variant cfg isRush hasLam depth).subtotal
          + (calculateQuote P st dims text variant cfg isRush hasLam depth).gst :=
  ⟨rfl, rfl, rfl⟩

/-- C3: for every ChannelLetters quote, `letterCount` is the number of
non-whitespace characters of `text` (0 for empty text is fine), the first
fabrication line item is the per-letter base with that count, and the
fabrication cost before any rush surcharge equals
`max(letterCount * basePerLetter + letterCount * heightIn * perInchHeight
+ lighting adder + backer adder, minimumPrice)`, where the lighting adder
is `letterCount` times the per-letter rate (0 for NonLit) and the backer
adder is flat, present exactly when `roundedBacker`. -/
theorem C3_channel_formula (P : Pricing) (dims : Dimensions) (text : String)
    (variant : DesignVariant) (cfg : InstallConfig) (hasLam : Bool) (depth : ℚ) :
    letterCountOf text = (text.data.filter fun c => !c.isWhitespace).length
      ∧ (calculateQuote P SignType.CHANNEL_LETTERS dims text variant cfg false hasLam depth).breakdown.fabAdders.head?
        = some (FabAdder.lettersBase (letterCountOf text) P.CHANNEL_LETTERS.BASE_PER_LETTER
            ((letterCountOf text : ℚ) * P.CHANNEL_LETTERS.BASE_PER_LETTER))
      ∧ (calculateQuote P SignType.CHANNEL_LETTERS dims text variant cfg false hasLam depth).fabricationCost
        = max ((letterCountOf text : ℚ) * P.CHANNEL_LETTERS.BASE_PER_LETTER
            + (letterCountOf text : ℚ) * dims.heightIn * P.CHANNEL_LETTERS.PER_INCH_HEIGHT
            + (if variant.lighting = LightingType.FRONT_LIT then
                 (letterCountOf text : ℚ) * P.CHANNEL_LETTERS.LIGHTING_ADDER_FRONT_LIT
               else if variant.lighting = LightingType.BACK_LIT then
                 (letterCountOf text : ℚ) * P.CHANNEL_LETTERS.LIGHTING_ADDER_BACK_LIT
               else 0)
            + (if variant.roundedBacker then P.CHANNEL_LETTERS.BACKER_ADDER else 0))
            P.CHANNEL_LETTERS.MIN_PRICE := by
  refine ⟨rfl, ?_, ?_⟩
  · show (fabChannel P.CHANNEL_LETTERS dims text variant).2.head? = _
    exact fabChannel_snd_head P.CHANNEL_LETTERS dims text variant
  · show (fabChannel P.CHANNEL_LETTERS dims text variant).1 = _
    exact fabChannel_fst P.CHANNEL_LETTERS dims text variant

/-- C4: for ChannelLetters and Lightbox quotes a "Minimum Pricing Applied"
line item is present if and only if the raw cost is strictly below the
minimum price (never when they are equal), for any rush setting; for
WindowVinyl quotes no such line item is ever emitted, even when the floor
binds. -/
theorem C4_minimum_line_item (P : Pricing) (dims : Dimensions) (text : String)
    (variant : DesignVariant) (cfg : InstallConfig) (isRush : Bool)
    (hasLam : Bool) (depth : ℚ) :
    (((calculateQuote P SignType.CHANNEL_LETTERS dims text variant cfg isRush hasLam depth).breakdown.fabAdders.any
          FabAdder.isMinimumApplied = true)
        ↔ (letterCountOf text : ℚ) * P.CHANNEL_LETTERS.BASE_PER_LETTER
            + (letterCountOf text : ℚ) * dims.heightIn * P.CHANNEL_LETTERS.PER_INCH_HEIGHT
            + (if variant.lighting = LightingType.FRONT_LIT then
                 (letterCountOf text : ℚ) * P.CHANNEL_LETTERS.LIGHTING_ADDER_FRONT_LIT
               else if variant.lighting = LightingType.BACK_LIT then
                 (letterCountOf text : ℚ) * P.CHANNEL_LETTERS.LIGHTING_ADDER_BACK_LIT
               else 0)
            + (if variant.roundedBacker then P.CHANNEL_LETTERS.BACKER_ADDER else 0)
          < P.CHANNEL_LETTERS.MIN_PRICE)
      ∧ (((calculateQuote P SignType.LIGHTBOX dims text variant cfg isRush hasLam depth).breakdown.fabAdders.any
            FabAdder.isMinimumApplied = true)
          ↔ dims.widthIn * dims.heightIn / 144 * P.LIGHTBOX.PER_SQFT
              + (if P.LIGHTBOX.DEPTH_BASE < depth then
                   (depth - P.LIGHTBOX.DEPTH_BASE) * P.LIGHTBOX.DEPTH_ADDER_PER_INCH
                 else 0)
              + (if variant.lighting = LightingType.FRONT_LIT then
                   P.LIGHTBOX.LIGHTING_ADDER_FRONT_LIT
                 else 0)
            < P.LIGHTBOX.MIN_PRICE)
      ∧ (calculateQuote P SignType.WINDOW_VINYL dims text variant cfg isRush hasLam depth).breakdown.fabAdders.any
          FabAdder.isMinimumApplied = false := by
  have hrush : ∀ q : ℚ, FabAdder.isMinimumApplied (FabAdder.rushOrder q) = false := fun q => rfl
  refine ⟨?_, ?_, ?_⟩
  · rw [calculateQuote_any_fabAdder P SignType.CHANNEL_LETTERS dims text variant cfg isRush
      hasLam depth FabAdder.isMinimumApplied hrush]
    exact fabChannel_min_item P.CHANNEL_LETTERS dims text variant
  · rw [calculateQuote_any_fabAdder P SignType.LIGHTBOX dims text variant cfg isRush
      hasLam depth FabAdder.isMinimumApplied hrush]
    exact fabLightbox_min_item P.LIGHTBOX dims variant depth
  · rw [calculateQuote_any_fabAdder P SignType.WINDOW_VINYL dims text variant cfg isRush
      hasLam depth FabAdder.isMinimumApplied hrush]
    exact fabVinyl_no_min_item P.WINDOW_VINYL dims hasLam

/-- C5: for every input (any category string, in particular all three sign
types), the fabrication cost with `isRush = true` equals the fabrication
cost of the same input with `isRush = false` times `1 + RUSH_ORDER_PERCENT`
(so the surcharge is applied uniformly after the category computation and
after the floor, which the no-rush cost already includes), and the rush
line item is appended at the end of the fabrication items. -/
theorem C5_rush_exactness (P : Pricing) (st : String) (dims : Dimensions)
    (text : String) (variant : DesignVariant) (cfg : InstallConfig)
    (hasLam : Bool) (depth : ℚ) :
    (calculateQuote P st dims text variant cfg true hasLam depth).fabricationCost
        = (calculateQuote P st dims text variant cfg false hasLam depth).fabricationCost
          * (1 + P.RUSH_ORDER_PERCENT)
      ∧ (calculateQuote P st dims text variant cfg true hasLam depth).breakdown.fabAdders
        = (calculateQuote P st dims text variant cfg false hasLam depth).breakdown.fabAdders
          ++ [FabAdder.rushOrder
                ((calculateQuote P st dims text variant cfg false hasLam depth).fabricationCost
                  * P.RUSH_ORDER_PERCENT)] := by
  constructor
  · show (fabricationOf P st dims text variant hasLam depth).1
        + (fabricationOf P st dims text variant hasLam depth).1 * P.RUSH_ORDER_PERCENT
      = (fabricationOf P st dims text variant hasLam depth).1 * (1 + P.RUSH_ORDER_PERCENT)
    ring
  · rfl

/-- C6: the labor tier used is the first tier of the table whose `maxFt`
is at least `heightFeet` (inclusive boundary), and when `heightFeet`
exceeds every declared ceiling the last tier of the non-empty table is
used as a fallback; the labor cost equals `tier.hours * LABOR_RATE` and is
always emitted as an installation line item. -/
theorem C6_tier_selection (P : Pricing) (st : String) (dims : Dimensions) (text : String)
    (variant : DesignVariant) (cfg : InstallConfig) (isRush : Bool) (hasLam : Bool)
    (depth : ℚ) (hne : P.INSTALLATION.HEIGHT_TIERS ≠ []) :
    (∀ l₁ t l₂, P.INSTALLATION.HEIGHT_TIERS = l₁ ++ t :: l₂ →
        (∀ u ∈ l₁, ¬ cfg.heightFeet ≤ u.maxFt) → cfg.heightFeet ≤ t.maxFt →
        selectedTier P.INSTALLATION cfg.heightFeet = t)
      ∧ ((∀ t ∈ P.INSTALLATION.HEIGHT_TIERS, ¬ cfg.heightFeet ≤ t.maxFt) →
          selectedTier P.INSTALLATION cfg.heightFeet = P.INSTALLATION.HEIGHT_TIERS.getLast hne)
      ∧ (calculateQuote P st dims text variant cfg isRush hasLam depth).breakdown.installLabor
        = (selectedTier P.INSTALLATION cfg.heightFeet).hours * P.INSTALLATION.LABOR_RATE
      ∧ InstallAdder.labor (selectedTier P.INSTALLATION cfg.heightFeet).hours
          P.INSTALLATION.LABOR_RATE
          ((selectedTier P.INSTALLATION cfg.heightFeet).hours * P.INSTALLATION.LABOR_RATE)
        ∈ (calculateQuote P st dims text variant cfg isRush hasLam depth).breakdown.installAdders := by
  refine ⟨?_, ?_, rfl, labor_item_mem P.INSTALLATION cfg⟩
  · intro l₁ t l₂ hdec hnone hyes
    have hfindl : l₁.find? (fun u => decide (cfg.heightFeet ≤ u.maxFt)) = none :=
      List.find?_eq_none.mpr fun u hu => by simpa using hnone u hu
    have hfindt : (t :: l₂).find? (fun u => decide (cfg.heightFeet ≤ u.maxFt)) = some t :=
      List.find?_cons_of_pos l₂ (by simpa using hyes)
    simp [selectedTier, hdec, List.find?_append, hfindl, hfindt]
  · intro hall
    have hfind : (P.INSTALLATION.HEIGHT_TIERS.find?
        (fun u => decide (cfg.heightFeet ≤ u.maxFt))) = none :=
      List.find?_eq_none.mpr fun u hu => by simpa using hall u hu
    simp [selectedTier, hfind, List.getLastD_eq_getLast?, List.getLast?_eq_getLast _ hne]

/-- C6 (witness): with the sample tier table, `heightFeet = 20` sits
exactly on the second tier's ceiling and that tier is selected (inclusive
boundary); the labor cost uses its hours. -/
theorem C6_witness :
    sampleP.INSTALLATION.HEIGHT_TIERS ≠ []
      ∧ selectedTier sampleP.INSTALLATION sampleCfg.heightFeet = ⟨20, 4⟩
      ∧ (calculateQuote sampleP SignType.CHANNEL_LETTERS ⟨30, 18⟩ "OPEN" sampleVariant sampleCfg
          false false 4).breakdown.installLabor = 4 * sampleP.INSTALLATION.LABOR_RATE := by
  have hsel : selectedTier sampleP.INSTALLATION sampleCfg.heightFeet = ⟨20, 4⟩ :=
    (C6_tier_selection sampleP SignType.CHANNEL_LETTERS ⟨30, 18⟩ "OPEN" sampleVariant sampleCfg
        false false 4 (by decide)).1 [⟨10, 2⟩] ⟨20, 4⟩ [⟨100, 8⟩] rfl (by decide) (by decide)
  refine ⟨by decide, hsel, ?_⟩
  have hlab := (C6_tier_selection sampleP SignType.CHANNEL_LETTERS ⟨30, 18⟩ "OPEN" sampleVariant
    sampleCfg false false 4 (by decide)).2.2.1
  rw [hlab, hsel]

/-- C7: for every WindowVinyl quote with `hasLamination = true`, the
lamination line item amount equals exactly `LAMINATION_PERCENT` of the
pre-lamination raw cost `sqft * PER_SQFT` (never of the floored cost), and
that amount is added to the raw cost before the minimum-price floor is
applied. -/
theorem C7_lamination_base (P : Pricing) (dims : Dimensions) (text : String)
    (variant : DesignVariant) (cfg : InstallConfig) (isRush : Bool) (depth : ℚ) :
    FabAdder.lamination (dims.widthIn * dims.heightIn / 144 * P.WINDOW_VINYL.PER_SQFT
        * P.WINDOW_VINYL.LAMINATION_PERCENT)
      ∈ (calculateQuote P SignType.WINDOW_VINYL dims text variant cfg isRush true depth).breakdown.fabAdders
    ∧ (calculateQuote P SignType.WINDOW_VINYL dims text variant cfg false true depth).fabricationCost
      = max (dims.widthIn * dims.heightIn / 144 * P.WINDOW_VINYL.PER_SQFT
          + dims.widthIn * dims.heightIn / 144 * P.WINDOW_VINYL.PER_SQFT
            * P.WINDOW_VINYL.LAMINATION_PERCENT)
        P.WINDOW_VINYL.MIN_PRICE := by
  constructor
  · simp [calculateQuote, fabricationOf, fabVinyl, SignType.WINDOW_VINYL, SignType.CHANNEL_LETTERS,
      SignType.LIGHTBOX]
    cases isRush <;> simp
  · simp [calculateQuote, fabricationOf, fabVinyl, SignType.WINDOW_VINYL, SignType.CHANNEL_LETTERS,
      SignType.LIGHTBOX]

/-- C8 (counterexample): the claim says FrontLit ChannelLetters quotes cost
strictly more than NonLit ones for every input. With empty text the
per-letter lighting adder is zero, so the FrontLit and NonLit variants
produce the same fabrication cost, refuting the universal strict
inequality. -/
theorem C8_counterexample :
    (calculateQuote sampleP SignType.CHANNEL_LETTERS ⟨30, 18⟩ ""
        { sampleVariant with lighting := LightingType.FRONT_LIT } sampleCfg
        false false 4).fabricationCost
      = (calculateQuote sampleP SignType.CHANNEL_LETTERS ⟨30, 18⟩ ""
          { sampleVariant with lighting := LightingType.NON_LIT } sampleCfg
          false false 4).fabricationCost := by
  simp [calculateQuote, fabricationOf, fabChannel, letterCount_empty, sampleP, sampleVariant,
    SignType.CHANNEL_LETTERS, LightingType.FRONT_LIT, LightingType.BACK_LIT,
    LightingType.NON_LIT, max_def]

/-- C8 (amended): the lighting comparisons hold once the degenerate cases
shown by the counterexample are excluded. For ChannelLetters: if the text
has at least one non-whitespace character, the per-letter lighting rates
are positive, the rush percentage is nonnegative and the NonLit raw cost
already meets the minimum-price floor, then FrontLit and BackLit variants
cost strictly more than NonLit, all else equal, for either rush setting.
For Lightbox: if the flat FrontLit adder is nonnegative and the NonLit raw
cost meets the floor, then without rush the FrontLit variant costs exactly
`LIGHTING_ADDER_FRONT_LIT` more than NonLit, and BackLit equals NonLit. -/
theorem C8_lighting_adder (P : Pricing) (dims : Dimensions) (text : String)
    (variant : DesignVariant) (cfg : InstallConfig) (isRush : Bool) (hasLam : Bool)
    (depth : ℚ) :
    (0 < letterCountOf text →
      0 < P.CHANNEL_LETTERS.LIGHTING_ADDER_FRONT_LIT →
      0 < P.CHANNEL_LETTERS.LIGHTING_ADDER_BACK_LIT →
      0 ≤ P.RUSH_ORDER_PERCENT →
      P.CHANNEL_LETTERS.MIN_PRICE ≤
          (letterCountOf text : ℚ) * P.CHANNEL_LETTERS.BASE_PER_LETTER
          + (letterCountOf text : ℚ) * dims.heightIn * P.CHANNEL_LETTERS.PER_INCH_HEIGHT
          + (if variant.roundedBacker then P.CHANNEL_LETTERS.BACKER_ADDER else 0) →
      (calculateQuote P SignType.CHANNEL_LETTERS dims text
            { variant with lighting := LightingType.FRONT_LIT } cfg isRush hasLam depth).fabricationCost
          > (calculateQuote P SignType.CHANNEL_LETTERS dims text
              { variant with lighting := LightingType.NON_LIT } cfg isRush hasLam depth).fabricationCost
        ∧ (calculateQuote P SignType.CHANNEL_LETTERS dims text
              { variant with lighting := LightingType.BACK_LIT } cfg isRush hasLam depth).fabricationCost
          > (calculateQuote P SignType.CHANNEL_LETTERS dims text
              { variant with lighting := LightingType.NON_LIT } cfg isRush hasLam depth).fabricationCost)
    ∧ (0 ≤ P.LIGHTBOX.LIGHTING_ADDER_FRONT_LIT →
       P.LIGHTBOX.MIN_PRICE ≤
           dims.widthIn * dims.heightIn / 144 * P.LIGHTBOX.PER_SQFT
           + (if P.LIGHTBOX.DEPTH_BASE < depth then
                (depth - P.LIGHTBOX.DEPTH_BASE) * P.LIGHTBOX.DEPTH_ADDER_PER_INCH
              else 0) →
       (calculateQuote P SignType.LIGHTBOX dims text
            { variant with lighting := LightingType.FRONT_LIT } cfg false hasLam depth).fabricationCost
          = (calculateQuote P SignType.LIGHTBOX dims text
              { variant with lighting := LightingType.NON_LIT } cfg false hasLam depth).fabricationCost
            + P.LIGHTBOX.LIGHTING_ADDER_FRONT_LIT
        ∧ (calculateQuote P SignType.LIGHTBOX dims text
              { variant with lighting := LightingType.BACK_LIT } cfg false hasLam depth).fabricationCost
          = (calculateQuote P SignType.LIGHTBOX dims text
              { variant with lighting := LightingType.NON_LIT } cfg false hasLam depth).fabricationCost) := by
  constructor
  · intro hn hF hB hp hmin
    have hnq : (0 : ℚ) < (letterCountOf text : ℚ) := by exact_mod_cast hn
    have hFq : (0 : ℚ) < (letterCountOf text : ℚ) * P.CHANNEL_LETTERS.LIGHTING_ADDER_FRONT_LIT :=
      mul_pos hnq hF
    have hBq : (0 : ℚ) < (letterCountOf text : ℚ) * P.CHANNEL_LETTERS.LIGHTING_ADDER_BACK_LIT :=
      mul_pos hnq hB
    have eN : (fabChannel P.CHANNEL_LETTERS dims text
        { variant with lighting := LightingType.NON_LIT }).1
        = (letterCountOf text : ℚ) * P.CHANNEL_LETTERS.BASE_PER_LETTER
          + (letterCountOf text : ℚ) * dims.heightIn * P.CHANNEL_LETTERS.PER_INCH_HEIGHT
          + (if variant.roundedBacker then P.CHANNEL_LETTERS.BACKER_ADDER else 0) := by
      rw [fabChannel_fst]
      simp only [LightingType.NON_LIT, LightingType.FRONT_LIT, LightingType.BACK_LIT,
        String.reduceEq, reduceIte, add_zero]
      exact max_eq_left (by linarith)
    have eF : (fabChannel P.CHANNEL_LETTERS dims text
        { variant with lighting := LightingType.FRONT_LIT }).1
        = (letterCountOf text : ℚ) * P.CHANNEL_LETTERS.BASE_PER_LETTER
          + (letterCountOf text : ℚ) * dims.heightIn * P.CHANNEL_LETTERS.PER_INCH_HEIGHT
          + (letterCountOf text : ℚ) * P.CHANNEL_LETTERS.LIGHTING_ADDER_FRONT_LIT
          + (if variant.roundedBacker then P.CHANNEL_LETTERS.BACKER_ADDER else 0) := by
      rw [fabChannel_fst]
      simp only [LightingType.NON_LIT, LightingType.FRONT_LIT, LightingType.BACK_LIT,
        String.reduceEq, reduceIte, add_zero]
      exact max_eq_left (by split_ifs at hmin ⊢ <;> linarith)
    have eB : (fabChannel P.CHANNEL_LETTERS dims text
        { variant with lighting := LightingType.BACK_LIT }).1
        = (letterCountOf text : ℚ) * P.CHANNEL_LETTERS.BASE_PER_LETTER
          + (letterCountOf text : ℚ) * dims.heightIn * P.CHANNEL_LETTERS.PER_INCH_HEIGHT
          + (letterCountOf text : ℚ) * P.CHANNEL_LETTERS.LIGHTING_ADDER_BACK_LIT
          + (if variant.roundedBacker then P.CHANNEL_LETTERS.BACKER_ADDER else 0) := by
      rw [fabChannel_fst]
      simp only [LightingType.NON_LIT, LightingType.FRONT_LIT, LightingType.BACK_LIT,
        String.reduceEq, reduceIte, add_zero]
      exact max_eq_left (by split_ifs at hmin ⊢ <;> linarith)
    constructor
    · refine rush_preserves_gt P SignType.CHANNEL_LETTERS dims text _ _ cfg isRush hasLam depth hp ?_
      show (fabChannel P.CHANNEL_LETTERS dims text { variant with lighting := LightingType.FRONT_LIT }).1
          > (fabChannel P.CHANNEL_LETTERS dims text { variant with lighting := LightingType.NON_LIT }).1
      rw [eF, eN]
      linarith
    · refine rush_preserves_gt P SignType.CHANNEL_LETTERS dims text _ _ cfg isRush hasLam depth hp ?_
      show (fabChannel P.CHANNEL_LETTERS dims text { variant with lighting := LightingType.BACK_LIT }).1
          > (fabChannel P.CHANNEL_LETTERS dims text { variant with lighting := LightingType.NON_LIT }).1
      rw [eB, eN]
      linarith
  · intro hA hmin
    have eN : (fabLightbox P.LIGHTBOX dims { variant with lighting := LightingType.NON_LIT } depth).1
        = dims.widthIn * dims.heightIn / 144 * P.LIGHTBOX.PER_SQFT
          + (if P.LIGHTBOX.DEPTH_BASE < depth then
               (depth - P.LIGHTBOX.DEPTH_BASE) * P.LIGHTBOX.DEPTH_ADDER_PER_INCH
             else 0) := by
      rw [fabLightbox_fst]
      simp only [LightingType.NON_LIT, LightingType.FRONT_LIT,
        String.reduceEq, reduceIte, add_zero]
      exact max_eq_left (by linarith)
    have eB : (fabLightbox P.LIGHTBOX dims { variant with lighting := LightingType.BACK_LIT } depth).1
        = dims.widthIn * dims.heightIn / 144 * P.LIGHTBOX.PER_SQFT
          + (if P.LIGHTBOX.DEPTH_BASE < depth then
               (depth - P.LIGHTBOX.DEPTH_BASE) * P.LIGHTBOX.DEPTH_ADDER_PER_INCH
             else 0) := by
      rw [fabLightbox_fst]
      simp only [LightingType.BACK_LIT, LightingType.FRONT_LIT,
        String.reduceEq, reduceIte, add_zero]
      exact max_eq_left (by linarith)
    have eF : (fabLightbox P.LIGHTBOX dims { variant with lighting := LightingType.FRONT_LIT } depth).1
        = dims.widthIn * dims.heightIn / 144 * P.LIGHTBOX.PER_SQFT
          + (if P.LIGHTBOX.DEPTH_BASE < depth then
               (depth - P.LIGHTBOX.DEPTH_BASE) * P.LIGHTBOX.DEPTH_ADDER_PER_INCH
             else 0)
          + P.LIGHTBOX.LIGHTING_ADDER_FRONT_LIT := by
      rw [fabLightbox_fst]
      simp only [LightingType.NON_LIT, LightingType.FRONT_LIT,
        String.reduceEq, reduceIte, add_zero]
      exact max_eq_left (by linarith)
    constructor
    · show (fabLightbox P.LIGHTBOX dims { variant with lighting := LightingType.FRONT_LIT } depth).1
          = (fabLightbox P.LIGHTBOX dims { variant with lighting := LightingType.NON_LIT } depth).1
            + P.LIGHTBOX.LIGHTING_ADDER_FRONT_LIT
      rw [eF, eN]
    · show (fabLightbox P.LIGHTBOX dims { variant with lighting := LightingType.BACK_LIT } depth).1
          = (fabLightbox P.LIGHTBOX dims { variant with lighting := LightingType.NON_LIT } depth).1
      rw [eB, eN]

/-- C8 (witness): the amended theorem applied at concrete inputs where the
side conditions hold (four letters, raw costs above the floors). -/
theorem C8_witness :
    (0 < letterCountOf "OPEN")
      ∧ (calculateQuote sampleP SignType.CHANNEL_LETTERS ⟨30, 30⟩ "OPEN"
            { sampleVariant with lighting := LightingType.FRONT_LIT } sampleCfg
            false false 4).fabricationCost
        > (calculateQuote sampleP SignType.CHANNEL_LETTERS ⟨30, 30⟩ "OPEN"
            { sampleVariant with lighting := LightingType.NON_LIT } sampleCfg
            false false 4).fabricationCost
      ∧ (calculateQuote sampleP SignType.LIGHTBOX ⟨48, 48⟩ "OPEN"
            { sampleVariant with lighting := LightingType.FRONT_LIT } sampleCfg
            false false 4).fabricationCost
        = (calculateQuote sampleP SignType.LIGHTBOX ⟨48, 48⟩ "OPEN"
            { sampleVariant with lighting := LightingType.NON_LIT } sampleCfg
            false false 4).fabricationCost + sampleP.LIGHTBOX.LIGHTING_ADDER_FRONT_LIT := by
  refine ⟨by decide, ?_, ?_⟩
  · exact ((C8_lighting_adder sampleP ⟨30, 30⟩ "OPEN" sampleVariant sampleCfg false false 4).1
      (by decide) (by norm_num [sampleP]) (by norm_num [sampleP]) (by norm_num [sampleP])
      (by simp [letterCount_OPEN, sampleP, sampleVariant]
          norm_num)).1
  · exact ((C8_lighting_adder sampleP ⟨48, 48⟩ "OPEN" sampleVariant sampleCfg false false 4).2
      (by norm_num [sampleP])
      (by simp [sampleP]
          norm_num)).1

/-- C9 (counterexample): the claim says an unrecognized category or lift
type makes the engine fail with an invariant-violation error. On the code,
the category "Banner" falls through every branch and a lift type "JETPACK"
matches neither SCISSOR nor BOOM: the engine returns a normal
`QuoteResult` with fabrication cost 0 and lift cost 0 — a silent default,
not an error. -/
theorem C9_counterexample :
    (calculateQuote sampleP "Banner" ⟨30, 18⟩ "OPEN" sampleVariant sampleLiftCfg
        false false 4).fabricationCost = 0
      ∧ (calculateQuote sampleP "Banner" ⟨30, 18⟩ "OPEN" sampleVariant sampleLiftCfg
          false false 4).breakdown.installLift = 0 := by
  constructor
  · simp [calculateQuote, fabricationOf, SignType.CHANNEL_LETTERS, SignType.LIGHTBOX,
      SignType.WINDOW_VINYL]
  · simp [calculateQuote, installationOf, sampleLiftCfg]

/-- C9 (amended): for every category outside the closed set the engine
does not fail: it silently returns a `QuoteResult` whose fabrication cost
is 0 (with at most a zero-amount rush item), and every lift type other
than SCISSOR and BOOM silently contributes a lift cost of 0. -/
theorem C9_silent_default (P : Pricing) (st : String) (dims : Dimensions) (text : String)
    (variant : DesignVariant) (cfg : InstallConfig) (isRush : Bool) (hasLam : Bool)
    (depth : ℚ) (h1 : st ≠ SignType.CHANNEL_LETTERS) (h2 : st ≠ SignType.LIGHTBOX)
    (h3 : st ≠ SignType.WINDOW_VINYL) (h4 : cfg.liftType ≠ "SCISSOR")
    (h5 : cfg.liftType ≠ "BOOM") :
    (calculateQuote P st dims text variant cfg isRush hasLam depth).fabricationCost = 0
      ∧ (calculateQuote P st dims text variant cfg isRush hasLam depth).breakdown.fabAdders
        = (if isRush then [FabAdder.rushOrder 0] else [])
      ∧ (calculateQuote P st dims text variant cfg isRush hasLam depth).breakdown.installLift
        = 0 := by
  have hfab : fabricationOf P st dims text variant hasLam depth = (0, []) := by
    simp [fabricationOf, h1, h2, h3]
  refine ⟨?_, ?_, ?_⟩
  · cases isRush
    · show (fabricationOf P st dims text variant hasLam depth).1 = 0
      rw [hfab]
    · show (fabricationOf P st dims text variant hasLam depth).1
          + (fabricationOf P st dims text variant hasLam depth).1 * P.RUSH_ORDER_PERCENT = 0
      rw [hfab]
      norm_num
  · cases isRush
    · show (fabricationOf P st dims text variant hasLam depth).2 = _
      rw [hfab]
      rfl
    · show (fabricationOf P st dims text variant hasLam depth).2
          ++ [FabAdder.rushOrder ((fabricationOf P st dims text variant hasLam depth).1
                * P.RUSH_ORDER_PERCENT)] = _
      rw [hfab]
      norm_num
  · show (installationOf P.INSTALLATION cfg).lift = 0
    simp [installationOf, h4, h5]

/-- C9 (witness): the amended theorem applied at the concrete bogus
category and lift type of the counterexample. -/
theorem C9_witness :
    (("Banner" : String) ≠ SignType.CHANNEL_LETTERS ∧ sampleLiftCfg.liftType ≠ "SCISSOR")
      ∧ (calculateQuote sampleP "Banner" ⟨30, 18⟩ "OPEN" sampleVariant sampleLiftCfg
            false false 4).fabricationCost = 0
        ∧ (calculateQuote sampleP "Banner" ⟨30, 18⟩ "OPEN" sampleVariant sampleLiftCfg
            false false 4).breakdown.fabAdders = (if false then [FabAdder.rushOrder 0] else [])
        ∧ (calculateQuote sampleP "Banner" ⟨30, 18⟩ "OPEN" sampleVariant sampleLiftCfg
            false false 4).breakdown.installLift = 0 :=
  ⟨⟨by decide, by decide⟩,
    C9_silent_default sampleP "Banner" ⟨30, 18⟩ "OPEN" sampleVariant sampleLiftCfg false false 4
      (by decide) (by decide) (by decide) (by decide) (by decide)⟩

/-- C10: for every input, the `breakdown.fabBase` field of the result
equals the `fabricationCost` field exactly — it holds the total post-rush
fabrication cost (as the source comment says), not a base-only component,
for all categories and either rush setting. -/
theorem C10_fabBase_eq_fabricationCost (P : Pricing) (st : String) (dims : Dimensions)
    (text : String) (variant : DesignVariant) (cfg : InstallConfig)
    (isRush : Bool) (hasLam : Bool) (depth : ℚ) :
    (calculateQuote P st dims text variant cfg isRush hasLam depth).breakdown.fabBase
      = (calculateQuote P st dims text variant cfg isRush hasLam depth).fabricationCost :=
  rfl

end SignQuote
